import Mathlib

/-!
Verification of the finance-tracking application (src/main.py) against its
natural-language specification.  The data model and operations below are a
shallow embedding of the Python/pandas code: the in-memory expense table is a
list of rows, pandas boolean-mask filtering is `List.filter`, `groupby(...).sum()`
is "distinct keys, sorted ascending, each paired with the sum over its group",
and monetary amounts (SQL `decimal`) are rationals.
-/

/-- A persisted expense record, as stored in the `Expenses` table
(columns `date`, `amount`, `category`, `description`).  The calendar date is
represented by its year/month/day components. -/
structure ExpenseRecord where
  dateYear : Nat
  dateMonth : Nat
  dateDay : Nat
  amount : ℚ
  category : String
  description : String
deriving DecidableEq

/-- A row of the in-memory expense table produced by `load_data`:
the four persisted columns plus the derived `year` and `month` columns
(`df["year"] = df["date"].dt.year`, `df["month"] = df["date"].dt.month`). -/
structure Row where
  date : Nat × Nat × Nat
  amount : ℚ
  category : String
  description : String
  year : Nat
  month : Nat
deriving DecidableEq

/-- The conversion a loaded record undergoes in `load_data` (src/main.py
lines 36-39): the selected columns are kept and `year`/`month` are derived
from the date. -/
def toRow (r : ExpenseRecord) : Row :=
  { date := (r.dateYear, r.dateMonth, r.dateDay)
    amount := r.amount
    category := r.category
    description := r.description
    year := r.dateYear
    month := r.dateMonth }

/-- `load_data` (src/main.py lines 33-41): materializes the expense history
from the store (`SELECT date, amount, category, description FROM Expenses`)
and derives the `year` and `month` columns.  The store is modelled by the
list of its persisted records in insertion order. -/
def load_data (store : List ExpenseRecord) : List Row :=
  store.map toRow

/-- `insertExpense` (the parameterized `INSERT INTO Expenses` at src/main.py
lines 78-83): appends one record to the store. -/
def insertExpense (store : List ExpenseRecord) (r : ExpenseRecord) : List ExpenseRecord :=
  store ++ [r]

/-- The `months` dictionary of src/main.py lines 103-104, as a function from
month number to display name. -/
def monthName : Nat → String
  | 1 => "January"
  | 2 => "February"
  | 3 => "March"
  | 4 => "April"
  | 5 => "May"
  | 6 => "June"
  | 7 => "July"
  | 8 => "August"
  | 9 => "September"
  | 10 => "October"
  | 11 => "November"
  | 12 => "December"
  | _ => ""

/-- `[k for k, v in months.items() if v in selected_month]` (src/main.py
line 114): the month numbers whose display name is among the selected names. -/
def monthNumbersOf (names : List String) : List Nat :=
  ((List.range 12).map (fun k => k + 1)).filter (fun k => names.contains (monthName k))

/-- `filterByYears` (src/main.py line 113):
`df[df["year"].isin(selected_year)] if selected_year else df`. -/
def filterByYears (df : List Row) (years : List Nat) : List Row :=
  if years.isEmpty then df else df.filter (fun r => years.contains r.year)

/-- `filterByMonths` (src/main.py line 114): keeps rows whose month number is
among the numbers of the selected month names; pass-through when the
selection is empty. -/
def filterByMonths (df : List Row) (names : List String) : List Row :=
  if names.isEmpty then df
  else df.filter (fun r => (monthNumbersOf names).contains r.month)

/-- `filterByCategory` (src/main.py lines 115-116): equality filter on
`category` unless the sentinel "All" is selected. -/
def filterByCategory (df : List Row) (c : String) : List Row :=
  if c = "All" then df else df.filter (fun r => r.category == c)

/-- The composed filter pipeline of src/main.py lines 113-116 producing
`filtered_df`. -/
def applyFilters (df : List Row) (years : List Nat) (names : List String)
    (c : String) : List Row :=
  filterByCategory (filterByMonths (filterByYears df years) names) c

/-- `totalSpending` (`filtered_df["amount"].sum()`, src/main.py line 120). -/
def totalSpending (rows : List Row) : ℚ :=
  (rows.map (fun r => r.amount)).sum

/-- Effective predicate of the year filter: trivially true when no year is
selected. -/
def yearPred (years : List Nat) (r : Row) : Bool :=
  years.isEmpty || years.contains r.year

/-- Effective predicate of the month filter: trivially true when no month is
selected. -/
def monthPred (names : List String) (r : Row) : Bool :=
  names.isEmpty || (monthNumbersOf names).contains r.month

/-- Effective predicate of the category filter: trivially true for the
sentinel "All". -/
def catPred (c : String) (r : Row) : Bool :=
  c == "All" || r.category == c

/- groupby model: pandas `df.groupby(keys)["amount"].sum().reset_index()`
returns one output row per distinct key, with keys sorted ascending. -/

/-- Insertion step of an insertion sort parametrized by a boolean "less or
equal" test. -/
def insertLe (le : α → α → Bool) (x : α) : List α → List α
  | [] => [x]
  | y :: ys => if le x y then x :: y :: ys else y :: insertLe le x ys

/-- Insertion sort parametrized by a boolean "less or equal" test (models the
ascending key order of a pandas groupby). -/
def sortLe (le : α → α → Bool) : List α → List α
  | [] => []
  | x :: xs => insertLe le x (sortLe le xs)

/-- Lexicographic order on `(year, month)` pairs. -/
def pairLe (a b : Nat × Nat) : Bool :=
  a.1 < b.1 || (a.1 == b.1 && a.2 ≤ b.2)

/-- The distinct `(year, month)` pairs of a table, in ascending lexicographic
order: the group keys of `df.groupby(["year", "month"])`. -/
def distinctSortedPairs (df : List Row) : List (Nat × Nat) :=
  sortLe pairLe ((df.map (fun r => (r.year, r.month))).eraseDups)

/-- Sum of `amount` over the rows of one `(year, month)` group. -/
def groupSum (df : List Row) (p : Nat × Nat) : ℚ :=
  totalSpending (df.filter (fun r => r.year == p.1 && r.month == p.2))

/-- `line_data`, the monthly-trend table handed to the line chart
(src/main.py lines 124-134).  Lines 124-126 build a grouping of the table
restricted to `selected_year`, but line 133 then reassigns `line_data` to
`df.groupby(["year", "month"])["amount"].sum().reset_index()` computed from
the FULL table, discarding the year filter; line 134 re-maps month numbers
to display names.  The value below is therefore the final value of the
Python variable, which does not depend on `selYears`; the overwritten
intermediate value of lines 124-126 is kept as the dead binding. -/
def line_data (df : List Row) (selYears : List Nat) : List (Nat × String × ℚ) :=
  let dead := ((distinctSortedPairs (df.filter (fun r => selYears.contains r.year))).map
    (fun p => (p.1, monthName p.2, groupSum df p)))
  let _ := dead
  (distinctSortedPairs df).map (fun p => (p.1, monthName p.2, groupSum df p))

/-- The distinct categories of a row set in ascending name order: the group
keys of `filtered_df.groupby("category")`. -/
def distinctSortedCats (rows : List Row) : List String :=
  sortLe (fun a b => !(b < a)) ((rows.map (fun r => r.category)).eraseDups)

/-- `pie_data` (src/main.py line 143): the fully filtered rows grouped by
`category` with `amount` summed. -/
def pie_data (rows : List Row) : List (String × ℚ) :=
  (distinctSortedCats rows).map
    (fun c => (c, totalSpending (rows.filter (fun r => r.category == c))))

/-- The rendered content of the Analysis tab: either the "no data" warning or
the report (total-spending metric, monthly-trend line data, category pie
data, filtered listing). -/
inductive AnalysisView where
  | noData : AnalysisView
  | report : ℚ → List (Nat × String × ℚ) → List (String × ℚ) → List Row → AnalysisView
deriving DecidableEq

/-- The Analysis tab logic (src/main.py lines 98-150): the `df.empty` guard
short-circuits to the "no data" warning; otherwise the filters are applied
and the aggregates are computed. -/
def renderAnalysis (df : List Row) (selYears : List Nat) (selMonths : List String)
    (selCat : String) : AnalysisView :=
  if df.isEmpty then AnalysisView.noData
  else
    let filtered := applyFilters df selYears selMonths selCat
    AnalysisView.report (totalSpending filtered) (line_data df selYears)
      (pie_data filtered) filtered

/-- The table used by the failing-input evaluation for the monthly-trend
claim: one 2023 row and one 2024 row. -/
def trendExampleDf : List Row :=
  [{ date := (2023, 1, 10), amount := 1, category := "Bills",
     description := "a", year := 2023, month := 1 },
   { date := (2024, 1, 11), amount := 2, category := "Home",
     description := "b", year := 2024, month := 1 }]

/-- The record of the round-trip scenario:
`date=2024-03-05, amount=42.50, category="Bills", description="electric"`. -/
def targetRecord : ExpenseRecord :=
  { dateYear := 2024, dateMonth := 3, dateDay := 5, amount := 85 / 2,
    category := "Bills", description := "electric" }

/-- Whether a loaded row matches the four persisted fields of the round-trip
record. -/
def rowMatchesTarget (row : Row) : Bool :=
  row.date == (2024, 3, 5) && row.amount == 85 / 2 &&
    row.category == "Bills" && row.description == "electric"

/-- The error kind of the data-access layer: the store is unreachable or the
credentials are rejected (the `pyodbc.Error` caught at src/main.py line 28). -/
inductive DbError where
  | connectionError : String → DbError
deriving DecidableEq

/-- The message printed for a connection failure. -/
def errMsg : DbError → String
  | DbError.connectionError m => m

/-- An established driver connection. -/
structure Conn where
  id : Nat
deriving DecidableEq

/-- `get_connection` (src/main.py lines 20-30).  The underlying driver is
modelled as a function from the attempt number to that attempt's outcome;
the code performs exactly one `pyodbc.connect` call, so only attempt 0 is
ever consulted.  On success the connection is returned and a success line is
printed; on failure the error is logged and re-raised unchanged. -/
def get_connection (driver : Nat → Except DbError Conn) :
    Except DbError Conn × List String :=
  match driver 0 with
  | Except.ok c => (Except.ok c, ["Connection successful!"])
  | Except.error e => (Except.error e, ["Connection failed: " ++ errMsg e])

/-- The form fields held in session state (src/main.py lines 51-60, 67-72). -/
structure FormState where
  selected_date : Nat × Nat × Nat
  value : ℚ
  category : String
  comments : String
deriving DecidableEq

/-- The process state touched by a form submission: the persisted store, the
validity of the `@st.cache_data` cached table, and the form session state. -/
structure AppState where
  store : List ExpenseRecord
  cacheValid : Bool
  form : FormState
deriving DecidableEq

/-- Where the submission path can raise: at `get_connection`, at
`cursor.execute`, at `conn.commit`, or nowhere. -/
inductive Fault where
  | atConnect
  | atExecute
  | atCommit
  | noFault
deriving DecidableEq

/-- The expense record built from the submitted form fields
(`(selected_date, value, category, comments)`, src/main.py line 82). -/
def recordOfForm (f : FormState) : ExpenseRecord :=
  { dateYear := f.selected_date.1, dateMonth := f.selected_date.2.1,
    dateDay := f.selected_date.2.2, amount := f.value,
    category := f.category, description := f.comments }

/-- The form state after `reset_form` and re-initialization (src/main.py
lines 43-48 and 51-60): today's date, amount 0.00, default category, empty
comments. -/
def initialForm (today : Nat × Nat × Nat) : FormState :=
  { selected_date := today, value := 0, category := "Grocery Shopping",
    comments := "" }

/-- The submission handler (src/main.py lines 74-89), in source order:
connect, execute the single parameterized insert, commit, then clear the
cached table and reset the form.  A row becomes durable only at `commit`
(the insert is a single atomic statement); a fault at any earlier point
raises, leaving the store, the cache flag and the form untouched. -/
def handleSubmit (fault : Fault) (err : DbError) (today : Nat × Nat × Nat)
    (s : AppState) : AppState × Option DbError :=
  if fault = Fault.atConnect then (s, some err)
  else if fault = Fault.atExecute then (s, some err)
  else
    let pending := [recordOfForm s.form]
    if fault = Fault.atCommit then (s, some err)
    else
      ({ store := s.store ++ pending, cacheValid := false,
         form := initialForm today }, none)

/-- A store record distinct from `targetRecord`, used by concrete witnesses. -/
def otherRecord : ExpenseRecord :=
  { dateYear := 2023, dateMonth := 1, dateDay := 2, amount := 7,
    category := "Home", description := "x" }

/-- A concrete app state used by the submission witnesses. -/
def sampleState : AppState :=
  { store := [otherRecord], cacheValid := true,
    form := { selected_date := (2024, 3, 5), value := 7, category := "Bills",
              comments := "electric" } }

/- Helper lemmas: each filter equals a `List.filter` with its effective
predicate. -/

theorem filterByYears_eq_filter (df : List Row) (years : List Nat) :
    filterByYears df years = df.filter (yearPred years) := by
  cases h : years.isEmpty
  · simp only [filterByYears, h, Bool.false_eq_true, if_false]
    exact List.filter_congr (fun r _ => by simp [yearPred, h])
  · simp only [filterByYears, h, if_true]
    have hq : df.filter (yearPred years) = df.filter (fun _ => true) :=
      List.filter_congr (fun r _ => by simp [yearPred, h])
    rw [hq, List.filter_true]

theorem filterByMonths_eq_filter (df : List Row) (names : List String) :
    filterByMonths df names = df.filter (monthPred names) := by
  cases h : names.isEmpty
  · simp only [filterByMonths, h, Bool.false_eq_true, if_false]
    exact List.filter_congr (fun r _ => by simp [monthPred, h])
  · simp only [filterByMonths, h, if_true]
    have hq : df.filter (monthPred names) = df.filter (fun _ => true) :=
      List.filter_congr (fun r _ => by simp [monthPred, h])
    rw [hq, List.filter_true]

theorem filterByCategory_eq_filter (df : List Row) (c : String) :
    filterByCategory df c = df.filter (catPred c) := by
  by_cases h : c = "All"
  · subst h
    have hl : filterByCategory df "All" = df := by simp [filterByCategory]
    have hq : df.filter (catPred "All") = df.filter (fun _ => true) :=
      List.filter_congr (fun r _ => by simp [catPred])
    rw [hl, hq, List.filter_true]
  · simp only [filterByCategory, if_neg h]
    exact List.filter_congr (fun r _ => by simp [catPred, beq_eq_false_iff_ne.mpr h])

/-- C1 (code-bug evaluation): with years 2023 and 2024 present and only 2024
selected, the year-filtered table has exactly one distinct `(year, month)`
pair, so the claim requires one output row — but the code's final `line_data`
(src/main.py line 133 overwrites the year-filtered grouping of lines 124-126)
has two rows, including one for the unselected year 2023, and coincides with
the value computed for an empty year selection. -/
theorem c1_line_data_ignores_year_filter :
    (distinctSortedPairs (trendExampleDf.filter
        (fun r => List.contains [2024] r.year))).length = 1 ∧
    (line_data trendExampleDf [2024]).length = 2 ∧
    line_data trendExampleDf [2024]
      = [(2023, "January", 1), (2024, "January", 2)] ∧
    line_data trendExampleDf [2024] = line_data trendExampleDf [] := by
  refine ⟨by decide, by decide, by with_unfolding_all rfl, by with_unfolding_all rfl⟩

/-- C2: for every table, a non-empty year (resp. month) selection keeps
exactly the rows whose `year` (resp. `month`) field is in the selected set,
and the empty selection is a pass-through returning the input unchanged. -/
theorem c2_filters_exact (df : List Row) (years : List Nat)
    (names : List String) (hy : years ≠ []) (hm : names ≠ []) :
    filterByYears df years = df.filter (fun r => years.contains r.year) ∧
    (∀ r ∈ filterByYears df years, r.year ∈ years) ∧
    filterByMonths df names
      = df.filter (fun r => (monthNumbersOf names).contains r.month) ∧
    (∀ r ∈ filterByMonths df names, r.month ∈ monthNumbersOf names) ∧
    filterByYears df [] = df ∧ filterByMonths df [] = df := by
  have hy' : years.isEmpty = false := by simpa using hy
  have hm' : names.isEmpty = false := by simpa using hm
  refine ⟨?_, ?_, ?_, ?_, rfl, rfl⟩
  · simp [filterByYears, hy']
  · intro r hr
    rw [filterByYears, hy'] at hr
    simp only [Bool.false_eq_true, if_false, List.mem_filter] at hr
    simpa using hr.2
  · simp [filterByMonths, hm']
  · intro r hr
    rw [filterByMonths, hm'] at hr
    simp only [Bool.false_eq_true, if_false, List.mem_filter] at hr
    simpa using hr.2

/-- Witness for C2 at a concrete table and concrete non-empty selections. -/
theorem c2_filters_exact_witness :
    (filterByYears
        [{ date := (2024, 3, 5), amount := 1, category := "Bills",
           description := "a", year := 2024, month := 3 },
         { date := (2023, 1, 2), amount := 2, category := "Home",
           description := "b", year := 2023, month := 1 }] [2024]
      = [{ date := (2024, 3, 5), amount := 1, category := "Bills",
           description := "a", year := 2024, month := 3 }]) ∧
    (filterByMonths
        [{ date := (2024, 3, 5), amount := 1, category := "Bills",
           description := "a", year := 2024, month := 3 },
         { date := (2023, 1, 2), amount := 2, category := "Home",
           description := "b", year := 2023, month := 1 }] ["March"]
      = [{ date := (2024, 3, 5), amount := 1, category := "Bills",
           description := "a", year := 2024, month := 3 }]) := by
  have h := c2_filters_exact
    [{ date := (2024, 3, 5), amount := 1, category := "Bills",
       description := "a", year := 2024, month := 3 },
     { date := (2023, 1, 2), amount := 2, category := "Home",
       description := "b", year := 2023, month := 1 }]
    [2024] ["March"] (by decide) (by decide)
  refine ⟨?_, ?_⟩
  · rw [h.1]; decide
  · rw [h.2.2.1]; decide

/-- C3: selecting the sentinel "All" applies no category filter (identity),
and any other selected category keeps exactly the rows whose `category`
equals it. -/
theorem c3_filterByCategory_spec (df : List Row) (c : String) (hc : c ≠ "All") :
    filterByCategory df "All" = df ∧
    filterByCategory df c = df.filter (fun r => r.category == c) ∧
    (∀ r ∈ filterByCategory df c, r.category = c) ∧
    (∀ r ∈ df, r.category = c → r ∈ filterByCategory df c) := by
  refine ⟨by simp [filterByCategory], by simp [filterByCategory, hc], ?_, ?_⟩
  · intro r hr
    rw [filterByCategory, if_neg hc] at hr
    simpa using (List.mem_filter.mp hr).2
  · intro r hr hcat
    rw [filterByCategory, if_neg hc]
    exact List.mem_filter.mpr ⟨hr, by simpa using hcat⟩

/-- Witness for C3 at a concrete table and the concrete category "Bills". -/
theorem c3_filterByCategory_spec_witness :
    (filterByCategory
        [{ date := (2024, 3, 5), amount := 1, category := "Bills",
           description := "a", year := 2024, month := 3 },
         { date := (2023, 1, 2), amount := 2, category := "Home",
           description := "b", year := 2023, month := 1 }] "All"
      = [{ date := (2024, 3, 5), amount := 1, category := "Bills",
           description := "a", year := 2024, month := 3 },
         { date := (2023, 1, 2), amount := 2, category := "Home",
           description := "b", year := 2023, month := 1 }]) ∧
    (filterByCategory
        [{ date := (2024, 3, 5), amount := 1, category := "Bills",
           description := "a", year := 2024, month := 3 },
         { date := (2023, 1, 2), amount := 2, category := "Home",
           description := "b", year := 2023, month := 1 }] "Bills"
      = [{ date := (2024, 3, 5), amount := 1, category := "Bills",
           description := "a", year := 2024, month := 3 }]) := by
  have h := c3_filterByCategory_spec
    [{ date := (2024, 3, 5), amount := 1, category := "Bills",
       description := "a", year := 2024, month := 3 },
     { date := (2023, 1, 2), amount := 2, category := "Home",
       description := "b", year := 2023, month := 1 }]
    "Bills" (by decide)
  refine ⟨h.1, ?_⟩
  rw [h.2.1]; decide

/-- C4: `totalSpending` is additive over a disjoint union of row sets and is
0 on the empty row set. -/
theorem c4_totalSpending_additive (A B : List Row) (_hdisj : ∀ r ∈ A, r ∉ B) :
    totalSpending (A ++ B) = totalSpending A + totalSpending B ∧
    totalSpending ([] : List Row) = 0 := by
  constructor
  · simp [totalSpending]
  · rfl

/-- Witness for C4 at two concrete disjoint row sets. -/
theorem c4_totalSpending_additive_witness :
    totalSpending
        ([{ date := (2024, 3, 5), amount := 1, category := "Bills",
            description := "a", year := 2024, month := 3 }] ++
         [{ date := (2023, 1, 2), amount := 2, category := "Home",
            description := "b", year := 2023, month := 1 }])
      = totalSpending
          [{ date := (2024, 3, 5), amount := 1, category := "Bills",
             description := "a", year := 2024, month := 3 }]
        + totalSpending
            [{ date := (2023, 1, 2), amount := 2, category := "Home",
               description := "b", year := 2023, month := 1 }] :=
  (c4_totalSpending_additive
    [{ date := (2024, 3, 5), amount := 1, category := "Bills",
       description := "a", year := 2024, month := 3 }]
    [{ date := (2023, 1, 2), amount := 2, category := "Home",
       description := "b", year := 2023, month := 1 }]
    (by decide)).1

/-- C5 (counterexample): the round-trip does not yield exactly one matching
row from EVERY starting store state.  If the store already holds a record
identical to the inserted one (the schema has no uniqueness constraint),
reloading after the insert yields two matching rows. -/
theorem c5_roundtrip_counterexample :
    ((load_data (insertExpense [targetRecord] targetRecord)).filter
        rowMatchesTarget).length = 2 ∧
    ¬ ((load_data (insertExpense [targetRecord] targetRecord)).filter
        rowMatchesTarget).length = 1 := by
  have h : ((load_data (insertExpense [targetRecord] targetRecord)).filter
      rowMatchesTarget).length = 2 := by with_unfolding_all rfl
  exact ⟨h, by rw [h]; decide⟩

/-- C5 (amended): starting from any store state holding no record that
matches the four fields, inserting the record
`(date=2024-03-05, amount=42.50, category="Bills", description="electric")`
and reloading yields exactly one matching row, and every matching row has
derived `year = 2024` and `month = 3`. -/
theorem c5_roundtrip_amended (store : List ExpenseRecord)
    (h : ∀ r ∈ store, rowMatchesTarget (toRow r) = false) :
    ((load_data (insertExpense store targetRecord)).filter
        rowMatchesTarget).length = 1 ∧
    ∀ row ∈ load_data (insertExpense store targetRecord),
      rowMatchesTarget row = true → row.year = 2024 ∧ row.month = 3 := by
  have hload : load_data (insertExpense store targetRecord)
      = store.map toRow ++ [toRow targetRecord] := by
    simp [load_data, insertExpense]
  have htrue : rowMatchesTarget (toRow targetRecord) = true := by
    with_unfolding_all rfl
  have hnil : (store.map toRow).filter rowMatchesTarget = [] := by
    rw [List.filter_eq_nil_iff]
    intro a ha
    obtain ⟨r, hr, rfl⟩ := List.mem_map.mp ha
    simp [h r hr]
  constructor
  · rw [hload, List.filter_append, hnil, List.nil_append]
    simp [htrue]
  · intro row hrow hmatch
    rw [hload] at hrow
    rcases List.mem_append.mp hrow with hmem | hmem
    · obtain ⟨r, hr, rfl⟩ := List.mem_map.mp hmem
      rw [h r hr] at hmatch
      simp at hmatch
    · have heq : row = toRow targetRecord := by simpa using hmem
      subst heq
      exact ⟨rfl, rfl⟩

/-- Witness for the amended C5 at a concrete one-record store that does not
contain the round-trip record. -/
theorem c5_roundtrip_amended_witness :
    ((load_data (insertExpense [otherRecord] targetRecord)).filter
        rowMatchesTarget).length = 1 :=
  (c5_roundtrip_amended [otherRecord]
    (by
      intro r hr
      have heq : r = otherRecord := by simpa using hr
      subst heq
      with_unfolding_all rfl)).1

/-- C6: an empty loaded table renders the "no data" state — no total, trend,
or breakdown is computed — and loading an empty store is a valid, non-error
state producing the empty table. -/
theorem c6_empty_table_no_data :
    ∀ (selYears : List Nat) (selMonths : List String) (selCat : String),
      renderAnalysis ([] : List Row) selYears selMonths selCat
          = AnalysisView.noData ∧
      renderAnalysis (load_data []) selYears selMonths selCat
          = AnalysisView.noData ∧
      load_data [] = [] := by
  intro selYears selMonths selCat
  exact ⟨rfl, rfl, rfl⟩

/-- C7: `get_connection` re-raises a driver failure unchanged after logging
it, returns every successful driver connection, and never retries — its
result depends only on the driver's first (and only) attempt. -/
theorem c7_get_connection_spec (driver : Nat → Except DbError Conn) :
    (∀ e, driver 0 = Except.error e →
      get_connection driver
        = (Except.error e, ["Connection failed: " ++ errMsg e])) ∧
    (∀ c, driver 0 = Except.ok c →
      get_connection driver = (Except.ok c, ["Connection successful!"])) ∧
    (∀ d : Nat → Except DbError Conn, driver 0 = d 0 →
      get_connection driver = get_connection d) := by
  refine ⟨?_, ?_, ?_⟩
  · intro e he
    simp [get_connection, he]
  · intro c hc
    simp [get_connection, hc]
  · intro d hd
    simp [get_connection, hd]

/-- Witness for C7: a driver whose only attempt fails with a connection
error has that error re-raised unchanged, with the failure logged. -/
theorem c7_get_connection_spec_witness :
    get_connection (fun _ => Except.error (DbError.connectionError "host unreachable"))
      = (Except.error (DbError.connectionError "host unreachable"),
         ["Connection failed: "
           ++ errMsg (DbError.connectionError "host unreachable")]) :=
  (c7_get_connection_spec
    (fun _ => Except.error (DbError.connectionError "host unreachable"))).1
    (DbError.connectionError "host unreachable") rfl

/-- C8: the submission is atomic and clears the cache exactly on success:
if no error is reported the store gains exactly the submitted record and the
cached table is invalidated; if an error is reported it is the raised error,
propagated unchanged, and no row is written to the store. -/
theorem c8_submit_atomic (fault : Fault) (err : DbError)
    (today : Nat × Nat × Nat) (s : AppState) :
    ((handleSubmit fault err today s).2 = none →
      (handleSubmit fault err today s).1.store
          = s.store ++ [recordOfForm s.form] ∧
      (handleSubmit fault err today s).1.cacheValid = false) ∧
    (∀ e, (handleSubmit fault err today s).2 = some e →
      e = err ∧ (handleSubmit fault err today s).1.store = s.store) := by
  cases fault <;> simp [handleSubmit]

/-- Witness for C8: a fault-free submission from a concrete state appends
the submitted record and invalidates the cache. -/
theorem c8_submit_atomic_witness :
    (handleSubmit Fault.noFault (DbError.connectionError "x") (2024, 3, 6)
        sampleState).1.store
      = sampleState.store ++ [recordOfForm sampleState.form] ∧
    (handleSubmit Fault.noFault (DbError.connectionError "x") (2024, 3, 6)
        sampleState).1.cacheValid = false :=
  (c8_submit_atomic Fault.noFault (DbError.connectionError "x") (2024, 3, 6)
    sampleState).1 rfl

/-- C9: a failed submission (fault at connect, execute or commit) leaves the
cache validity and the form session state — indeed the whole app state —
unchanged: the cache clear and form reset run only after a successful
commit. -/
theorem c9_submit_failure_frame (fault : Fault) (err : DbError)
    (today : Nat × Nat × Nat) (s : AppState) (e : DbError)
    (h : (handleSubmit fault err today s).2 = some e) :
    (handleSubmit fault err today s).1.cacheValid = s.cacheValid ∧
    (handleSubmit fault err today s).1.form = s.form ∧
    (handleSubmit fault err today s).1 = s := by
  cases fault <;> simp_all [handleSubmit]

/-- Witness for C9: a connect-time failure from a concrete state leaves the
cache flag and the form untouched. -/
theorem c9_submit_failure_frame_witness :
    (handleSubmit Fault.atConnect (DbError.connectionError "down") (2024, 3, 6)
        sampleState).1.cacheValid = sampleState.cacheValid ∧
    (handleSubmit Fault.atConnect (DbError.connectionError "down") (2024, 3, 6)
        sampleState).1.form = sampleState.form ∧
    (handleSubmit Fault.atConnect (DbError.connectionError "down") (2024, 3, 6)
        sampleState).1 = sampleState :=
  c9_submit_failure_frame Fault.atConnect (DbError.connectionError "down")
    (2024, 3, 6) sampleState (DbError.connectionError "down") rfl

/-- C10: each of the three filters returns a subsequence of its input (rows
survive unmodified and in their relative order, and the input table itself
is untouched), and the composed pipeline equals one filter by the
conjunction of the three effective predicates, keeping original table
order. -/
theorem c10_filters_sublist_pipeline (df : List Row) (years : List Nat)
    (names : List String) (c : String) :
    List.Sublist (filterByYears df years) df ∧
    List.Sublist (filterByMonths df names) df ∧
    List.Sublist (filterByCategory df c) df ∧
    applyFilters df years names c
      = df.filter (fun r => yearPred years r && monthPred names r && catPred c r) := by
  refine ⟨?_, ?_, ?_, ?_⟩
  · rw [filterByYears_eq_filter]
    exact List.filter_sublist df
  · rw [filterByMonths_eq_filter]
    exact List.filter_sublist df
  · rw [filterByCategory_eq_filter]
    exact List.filter_sublist df
  · rw [applyFilters, filterByYears_eq_filter, filterByMonths_eq_filter,
      filterByCategory_eq_filter, List.filter_filter, List.filter_filter]
    exact List.filter_congr (fun r _ => by
      cases yearPred years r <;> cases monthPred names r <;> cases catPred c r <;> rfl)
